import Mathlib

/-!
Shallow embedding of the UDP-to-audio relay program
(src/public/images/play-1760214105997-759986325.py) and proofs of its
specified properties.

The program opens a pyaudio playback stream with a fixed configuration,
binds a UDP socket to 0.0.0.0:46000, prints one status line, and then
loops: receive a datagram with recvfrom(4096), and when the payload is
non-empty, write it verbatim to the stream. KeyboardInterrupt is caught
and ignored; a finally block stops and closes the stream, terminates the
audio subsystem, and closes the socket.
-/

/-- A byte string, the payload of a UDP datagram. -/
abbrev Bytes := List Nat

/-- One UDP datagram as delivered to the bound port: payload plus sender
address. -/
structure Datagram where
  payload : Bytes
  sender : String
  deriving DecidableEq

/-- UDP_IP = "0.0.0.0" in the source. -/
def UDP_IP : String := "0.0.0.0"

/-- UDP_PORT = 46000 in the source. -/
def UDP_PORT : Nat := 46000

/-- CHANNELS = 2 in the source. -/
def CHANNELS : Nat := 2

/-- RATE = 48000 in the source. -/
def RATE : Nat := 48000

/-- The pyaudio sample-format constants. -/
inductive PaFormat where
  | paInt16
  | paInt24
  | paInt32
  | paFloat32
  | paUInt8
  deriving DecidableEq

/-- FORMAT = pyaudio.paInt16 in the source. -/
def FORMAT : PaFormat := PaFormat.paInt16

/-- CHUNK_SIZE = 1024 in the source. -/
def CHUNK_SIZE : Nat := 1024

/-- Sample width in bits of a pyaudio format constant, per the pyaudio
documentation. -/
def PaFormat.sampleBits : PaFormat → Nat
  | PaFormat.paInt16 => 16
  | PaFormat.paInt24 => 24
  | PaFormat.paInt32 => 32
  | PaFormat.paFloat32 => 32
  | PaFormat.paUInt8 => 8

/-- Whether a pyaudio format is a signed integer sample format, per the
pyaudio documentation. -/
def PaFormat.isSignedInt : PaFormat → Bool
  | PaFormat.paInt16 => true
  | PaFormat.paInt24 => true
  | PaFormat.paInt32 => true
  | PaFormat.paFloat32 => false
  | PaFormat.paUInt8 => false

/-- Byte order of multi-byte samples. -/
inductive ByteOrder where
  | little
  | big
  deriving DecidableEq

/-- Modelled from the spec: pyaudio integer formats use the native byte
order of the host, and the spec fixes the sample format of this program as
little-endian, i.e. the hosts the program targets are little-endian. -/
def hostByteOrder : ByteOrder := ByteOrder.little

/-- Byte order in which a pyaudio format lays out its samples: the native
order of the host, for every format. -/
def PaFormat.byteOrder : PaFormat → ByteOrder := fun _ => hostByteOrder

/-- Configuration of an opened pyaudio stream, the keyword arguments of
p.open in the source. -/
structure StreamConfig where
  format : PaFormat
  channels : Nat
  rate : Nat
  output : Bool
  frames_per_buffer : Nat
  deriving DecidableEq

/-- The stream opened by the program:
p.open(format=FORMAT, channels=CHANNELS, rate=RATE, output=True,
frames_per_buffer=CHUNK_SIZE). -/
def stream : StreamConfig := ⟨FORMAT, CHANNELS, RATE, true, CHUNK_SIZE⟩

/-- Socket address families (socket.AF_INET in the source). -/
inductive AddrFamily where
  | AF_INET
  | AF_INET6
  deriving DecidableEq

/-- Socket types (socket.SOCK_DGRAM in the source). -/
inductive SockType where
  | SOCK_DGRAM
  | SOCK_STREAM
  deriving DecidableEq

/-- A bound socket: family and type from socket.socket, address and port
from sock.bind. -/
structure UdpSocket where
  family : AddrFamily
  sockType : SockType
  bindAddr : String
  bindPort : Nat
  deriving DecidableEq

/-- The socket created and bound by the program:
socket.socket(socket.AF_INET, socket.SOCK_DGRAM); sock.bind((UDP_IP, UDP_PORT)). -/
def sock : UdpSocket := ⟨AddrFamily.AF_INET, SockType.SOCK_DGRAM, UDP_IP, UDP_PORT⟩

/-- The receive buffer size used by the recvfrom call in the loop:
sock.recvfrom(4096). -/
def RECV_BUFSIZE : Nat := 4096

/-- sock.recvfrom(bufsize) on a SOCK_DGRAM socket: returns at most bufsize
bytes of the payload of one datagram (excess bytes of a larger datagram are
discarded) together with the sender address. -/
def recvfrom (bufsize : Nat) (d : Datagram) : Bytes × String :=
  (d.payload.take bufsize, d.sender)

/-- The payloads passed to stream.write by the relay loop, in order, when
the datagrams ds are delivered to the socket: each iteration receives one
datagram via recvfrom(4096) and writes the received payload exactly when it
is non-empty (the Python guard "if data:"). -/
def loopWrites : List Datagram → List Bytes
  | [] => []
  | d :: rest =>
      if (recvfrom RECV_BUFSIZE d).fst = [] then loopWrites rest
      else (recvfrom RECV_BUFSIZE d).fst :: loopWrites rest

/-- Observable events of a run of the program. -/
inductive Event where
  | openStream (cfg : StreamConfig)
  | bindSock (addr : String) (port : Nat)
  | printLine (s : String)
  | write (b : Bytes)
  | stopStream
  | closeStream
  | terminate
  | closeSock
  deriving DecidableEq

/-- How the infinite loop is left: by a KeyboardInterrupt, or by any other
exception (socket error, device error). -/
inductive Ending where
  | interrupt
  | exn
  deriving DecidableEq

/-- Whether the process terminates as a normal exit or as an error exit. -/
inductive ExitStatus where
  | normal
  | error
  deriving DecidableEq

/-- The fixed status line printed at startup:
f"Listening on UDP port {UDP_PORT}...". -/
def startupLine : String := "Listening on UDP port " ++ toString UDP_PORT ++ "..."

/-- The events of the finally block, in source order: stream.stop_stream();
stream.close(); p.terminate(); sock.close(). -/
def cleanupEvents : List Event :=
  [Event.stopStream, Event.closeStream, Event.terminate, Event.closeSock]

/-- The full observable trace and exit status of a run of the program that
processes the datagrams ds and then leaves the loop by e: open the stream,
bind the socket, print the status line, perform the loop writes, then run
the finally block. A KeyboardInterrupt is caught by "except
KeyboardInterrupt: pass", so the process exits normally; any other
exception propagates after the finally block and the process exits with an
error. -/
def run (ds : List Datagram) (e : Ending) : List Event × ExitStatus :=
  (Event.openStream stream :: Event.bindSock UDP_IP UDP_PORT ::
      Event.printLine startupLine ::
      ((loopWrites ds).map Event.write ++ cleanupEvents),
    match e with
    | Ending.interrupt => ExitStatus.normal
    | Ending.exn => ExitStatus.error)

/-- Process exit code of an exit status: 0 for a normal Python exit, 1 for
an uncaught exception. -/
def exitCode : ExitStatus → Nat
  | ExitStatus.normal => 0
  | ExitStatus.error => 1

/-- Whether an event is a write to the audio sink. -/
def Event.isWrite : Event → Bool
  | Event.write _ => true
  | _ => false

/-- Whether an event is a print to standard output. -/
def Event.isPrintLine : Event → Bool
  | Event.printLine _ => true
  | _ => false

/-- The loop writes as a function of the received payload byte strings
alone, used to factor loopWrites through the payload projection. -/
def writesOf : List Bytes → List Bytes
  | [] => []
  | b :: rest =>
      if b.take RECV_BUFSIZE = [] then writesOf rest
      else b.take RECV_BUFSIZE :: writesOf rest

/-- A concrete non-empty datagram, the 4-byte scenario payload of the
spec. -/
def dgram1 : Datagram := Datagram.mk [0, 1, 0, 1] "127.0.0.1"

/-- The same payload as dgram1 but a different sender address. -/
def dgram1b : Datagram := Datagram.mk [0, 1, 0, 1] "10.9.8.7"

/-- A concrete empty-payload datagram. -/
def dgramEmpty : Datagram := Datagram.mk [] "127.0.0.1"

lemma loopWrites_eq_writesOf (ds : List Datagram) :
    loopWrites ds = writesOf (ds.map Datagram.payload) := by
  induction ds with
  | nil => rfl
  | cons d rest ih =>
      simp only [loopWrites, writesOf, recvfrom, List.map, ih]

lemma countP_map_write_zero (p : Event → Bool)
    (hp : ∀ b, p (Event.write b) = false) (ws : List Bytes) :
    (ws.map Event.write).countP p = 0 := by
  induction ws with
  | nil => rfl
  | cons b rest ih => simp [List.countP_cons, hp, ih]

lemma not_mem_map_write (ev : Event) (hw : ∀ b, ev ≠ Event.write b)
    (ws : List Bytes) : ev ∉ ws.map Event.write := by
  intro h
  rcases List.mem_map.mp h with ⟨b, _, hb⟩
  exact hw b hb.symm

lemma countP_run (ds : List Datagram) (e : Ending) (p : Event → Bool)
    (hp : ∀ b, p (Event.write b) = false) :
    (run ds e).fst.countP p =
      ([Event.openStream stream, Event.bindSock UDP_IP UDP_PORT,
        Event.printLine startupLine] ++ cleanupEvents).countP p := by
  simp [run, List.countP_cons, List.countP_append,
    countP_map_write_zero p hp (loopWrites ds)]

lemma length_le_of_mem_loopWrites {ds : List Datagram} {b : Bytes}
    (hb : b ∈ loopWrites ds) : b.length ≤ RECV_BUFSIZE := by
  induction ds with
  | nil => simp [loopWrites] at hb
  | cons d rest ih =>
      by_cases hc : (recvfrom RECV_BUFSIZE d).fst = []
      · rw [loopWrites, if_pos hc] at hb
        exact ih hb
      · rw [loopWrites, if_neg hc] at hb
        rcases List.mem_cons.mp hb with h1 | h1
        · subst h1
          simp [recvfrom]
        · exact ih h1

/-- C1 as stated is false on the code: one datagram with an empty payload
is delivered, but the guard "if data:" skips it, so zero write calls are
made instead of one. -/
theorem C1_counterexample :
    ([Datagram.mk [] "192.168.0.1"] : List Datagram).length = 1 ∧
    (loopWrites [Datagram.mk [] "192.168.0.1"]).length = 0 := by
  decide

/-- C1 (amended): for every sequence of N datagrams with non-empty payloads
delivered in order to the bound port, the relay loop makes exactly N write
calls, the k-th byte-identical to the first 4096 bytes of the payload of
the k-th datagram (the payload itself when it is at most 4096 bytes), in
the same order. -/
theorem C1_relay_faithful (ds : List Datagram)
    (h : ∀ d ∈ ds, d.payload ≠ []) :
    loopWrites ds = ds.map (fun d => d.payload.take RECV_BUFSIZE) ∧
    (loopWrites ds).length = ds.length := by
  induction ds with
  | nil => exact ⟨rfl, rfl⟩
  | cons d rest ih =>
      have hd : d.payload ≠ [] := h d (List.mem_cons_self d rest)
      have hrest : ∀ x ∈ rest, x.payload ≠ [] :=
        fun x hx => h x (List.mem_cons_of_mem d hx)
      obtain ⟨ih1, ih2⟩ := ih hrest
      have htake : (recvfrom RECV_BUFSIZE d).fst ≠ [] := by
        simp [recvfrom, RECV_BUFSIZE, List.take_eq_nil_iff, hd]
      rw [loopWrites, if_neg htake]
      refine ⟨?_, ?_⟩
      · simp [recvfrom, ih1]
      · simp [ih2]

/-- Witness for C1_relay_faithful at the 4-byte scenario datagram of the
spec. -/
theorem C1_relay_faithful_witness :
    (∀ d ∈ [dgram1], d.payload ≠ []) ∧
    (loopWrites [dgram1] = [dgram1].map (fun d => d.payload.take RECV_BUFSIZE) ∧
      (loopWrites [dgram1]).length = [dgram1].length) :=
  ⟨by decide, C1_relay_faithful [dgram1] (by decide)⟩

/-- C2: a received datagram with an empty payload produces no write call,
and the loop continues identically on the remaining datagrams. -/
theorem C2_empty_payload_no_write (d : Datagram) (ds : List Datagram)
    (h : d.payload = []) : loopWrites (d :: ds) = loopWrites ds := by
  rw [loopWrites, if_pos]
  simp [recvfrom, h]

/-- Witness for C2_empty_payload_no_write at a concrete empty datagram
followed by a concrete non-empty one. -/
theorem C2_witness :
    dgramEmpty.payload = [] ∧
    loopWrites (dgramEmpty :: [dgram1]) = loopWrites [dgram1] :=
  ⟨rfl, C2_empty_payload_no_write dgramEmpty [dgram1] rfl⟩

/-- C3: on every exit of the loop, whether by interrupt or by any other
exception, the finally block stops the stream, closes the stream and closes
the socket exactly once each, for any number of processed datagrams; and a
run with zero datagrams ending in an interrupt performs zero writes. -/
theorem C3_cleanup_exactly_once (ds : List Datagram) (e : Ending) :
    ((run ds e).fst.countP (· = Event.stopStream) = 1 ∧
      (run ds e).fst.countP (· = Event.closeStream) = 1 ∧
      (run ds e).fst.countP (· = Event.closeSock) = 1) ∧
    (run [] Ending.interrupt).fst.countP Event.isWrite = 0 := by
  refine ⟨⟨?_, ?_, ?_⟩, by decide⟩
  all_goals
    rw [countP_run ds e _ (fun b => by simp)]
    decide

/-- C4: recvfrom with buffer size 4096 returns the first 4096 bytes of the
datagram payload: a payload of at most 4096 bytes is returned unmodified,
and a longer payload is truncated to exactly its first 4096 bytes. -/
theorem C4_recv_truncates (d : Datagram) :
    (recvfrom RECV_BUFSIZE d).fst = d.payload.take RECV_BUFSIZE ∧
    (recvfrom RECV_BUFSIZE d).fst.length ≤ RECV_BUFSIZE ∧
    (d.payload.length ≤ RECV_BUFSIZE → (recvfrom RECV_BUFSIZE d).fst = d.payload) ∧
    (RECV_BUFSIZE ≤ d.payload.length →
      (recvfrom RECV_BUFSIZE d).fst.length = RECV_BUFSIZE) := by
  refine ⟨rfl, ?_, ?_, ?_⟩
  · simp [recvfrom]
  · intro h
    simp [recvfrom, List.take_of_length_le h]
  · intro h
    simp [recvfrom, List.length_take, Nat.min_eq_left h]

/-- Witness for C4_recv_truncates at a concrete 4-byte datagram, whose
payload is at or below the limit and passes through unmodified. -/
theorem C4_witness :
    dgram1.payload.length ≤ RECV_BUFSIZE ∧
    (recvfrom RECV_BUFSIZE dgram1).fst = dgram1.payload :=
  ⟨by decide, (C4_recv_truncates dgram1).2.2.1 (by decide)⟩

/-- C5: the write sequence depends only on the received payload byte
strings: two delivered datagram sequences with identical payload lists
yield identical write sequences, whatever the sender addresses. -/
theorem C5_writes_determined_by_payloads (ds1 ds2 : List Datagram)
    (h : ds1.map Datagram.payload = ds2.map Datagram.payload) :
    loopWrites ds1 = loopWrites ds2 := by
  rw [loopWrites_eq_writesOf, loopWrites_eq_writesOf, h]

/-- Witness for C5_writes_determined_by_payloads at two concrete datagrams
with the same payload and different sender addresses. -/
theorem C5_witness :
    [dgram1].map Datagram.payload = [dgram1b].map Datagram.payload ∧
    loopWrites [dgram1] = loopWrites [dgram1b] :=
  ⟨by decide, C5_writes_determined_by_payloads [dgram1] [dgram1b] (by decide)⟩

/-- C6: the playback stream is opened with exactly 2 channels, a signed
16-bit little-endian sample format, a 48000 Hz sample rate, and an internal
buffer of 1024 frames. -/
theorem C6_stream_config :
    stream.channels = 2 ∧ stream.format.sampleBits = 16 ∧
    stream.format.isSignedInt = true ∧
    stream.format.byteOrder = ByteOrder.little ∧
    stream.rate = 48000 ∧ stream.frames_per_buffer = 1024 ∧
    stream.output = true := by
  decide

/-- C7: the socket is a connectionless IPv4 datagram socket bound to
0.0.0.0 on port 46000, the receive call of the loop uses a maximum payload
size of 4096 bytes, and consequently every payload the loop writes has at
most 4096 bytes. -/
theorem C7_socket_and_recv_limit (ds : List Datagram) (b : Bytes)
    (hb : b ∈ loopWrites ds) :
    sock.sockType = SockType.SOCK_DGRAM ∧ sock.family = AddrFamily.AF_INET ∧
    sock.bindAddr = "0.0.0.0" ∧ sock.bindPort = 46000 ∧
    RECV_BUFSIZE = 4096 ∧ b.length ≤ RECV_BUFSIZE :=
  ⟨rfl, rfl, rfl, rfl, rfl, length_le_of_mem_loopWrites hb⟩

/-- Witness for C7_socket_and_recv_limit at a concrete singleton datagram
sequence and its single written payload. -/
theorem C7_witness :
    ([0, 1, 0, 1] : Bytes) ∈ loopWrites [dgram1] ∧
    (sock.sockType = SockType.SOCK_DGRAM ∧ sock.family = AddrFamily.AF_INET ∧
      sock.bindAddr = "0.0.0.0" ∧ sock.bindPort = 46000 ∧
      RECV_BUFSIZE = 4096 ∧ ([0, 1, 0, 1] : Bytes).length ≤ RECV_BUFSIZE) :=
  ⟨by decide, C7_socket_and_recv_limit [dgram1] [0, 1, 0, 1] (by decide)⟩

/-- C8: a KeyboardInterrupt is caught by the except clause and not
re-raised, so after the finally block the process terminates as a normal
exit with exit code 0, for any number of processed datagrams. -/
theorem C8_interrupt_normal_exit (ds : List Datagram) :
    (run ds Ending.interrupt).snd = ExitStatus.normal ∧
    exitCode (run ds Ending.interrupt).snd = 0 :=
  ⟨rfl, rfl⟩

/-- C9: every run prints exactly one line to standard output, the fixed
status line, and it occurs right after the socket is bound and before any
datagram is processed. -/
theorem C9_single_startup_line (ds : List Datagram) (e : Ending) :
    (run ds e).fst.filter Event.isPrintLine = [Event.printLine startupLine] ∧
    (run ds e).fst.take 3 =
      [Event.openStream stream, Event.bindSock UDP_IP UDP_PORT,
        Event.printLine startupLine] := by
  constructor
  · have hmap : ((loopWrites ds).map Event.write).filter Event.isPrintLine = [] := by
      rw [List.filter_eq_nil_iff]
      intro ev hev
      rcases List.mem_map.mp hev with ⟨b, _, hb⟩
      subst hb
      simp [Event.isPrintLine]
    simp [run, cleanupEvents, List.filter_append, hmap, Event.isPrintLine]
  · simp [run]

/-- C10: on every exit path the shutdown events occur in the fixed order
stop stream, close stream, terminate audio, close socket, as the final four
events of the trace, and none of them occurs earlier: in particular the
socket is never closed before the audio stream. -/
theorem C10_shutdown_order (ds : List Datagram) (e : Ending) :
    ∃ pre, (run ds e).fst =
        pre ++ [Event.stopStream, Event.closeStream, Event.terminate,
          Event.closeSock] ∧
      Event.stopStream ∉ pre ∧ Event.closeStream ∉ pre ∧
      Event.terminate ∉ pre ∧ Event.closeSock ∉ pre := by
  refine ⟨Event.openStream stream :: Event.bindSock UDP_IP UDP_PORT ::
      Event.printLine startupLine :: (loopWrites ds).map Event.write,
    ?_, ?_, ?_, ?_, ?_⟩
  · simp [run, cleanupEvents]
  all_goals
    simp only [List.mem_cons, not_or]
    refine ⟨by simp, by simp, by simp, ?_⟩
    exact not_mem_map_write _ (fun b => by simp) _
